import Mathlib

/-!
Verification of the Shoptimizer backend's asynchronous task lifecycle and
notification layer, as a shallow embedding of the Python sources:
`backend/app/claude/scene_generation.py` (ShopifyProductTo3DTask),
`backend/app/api/routes.py` (generate_product_3d, stream_task_result,
get_task_result, cancel_task) and `backend/app/api/models.py`.

Effectful collaborators (Redis publish/store, the Gemini client, image
decoding) are modelled by outcome oracles: an `Except PyErr _` field says
whether that call returns normally or raises, and the embedding records the
observable trace (published events, stored key/value pairs, how many external
generation calls were made).
-/

set_option maxHeartbeats 1000000

namespace Shoptimizer

/-- Minimal JSON-like value universe for the payload dictionaries the backend
passes around (Python str / int / list / dict / None values). -/
inductive JVal : Type where
  | s (v : String)
  | n (v : Nat)
  | null
  | arr (vs : List JVal)
  | obj (fields : List (String × JVal))

/-- Python `dict.get(key)` on an object value: first binding of the key, if any. -/
def jget : JVal → String → Option JVal
  | .obj kvs, k => (kvs.find? (fun p => p.1 == k)).map (fun p => p.2)
  | _, _ => none

/-- Field lookup returning the string payload, when the field is a string. -/
def jgetStr (v : JVal) (k : String) : Option String :=
  match jget v k with
  | some (.s str) => some str
  | _ => none

/-- A raised Python exception as observed by an `except` handler:
`str(e)` and `type(e).__name__`. -/
structure PyErr where
  msg : String
  ty : String
  deriving DecidableEq

/-- Python truthiness of an optional string (`None` and `""` are falsy). -/
def pyTruthyOptStr : Option String → Bool
  | some str => str ≠ ""
  | none => false

/-- Python `x or dflt` for an optional string operand. -/
def pyOrStr (v : Option String) (dflt : String) : String :=
  match v with
  | some str => if str = "" then dflt else str
  | none => dflt

/-- Rendering of a Python string-to-string dict inside an f-string
(single-quoted `repr`-style, as `f"... {colors}"` produces). -/
def pyDictRepr (kvs : List (String × String)) : String :=
  "\x7b" ++
    String.intercalate ", "
      (kvs.map (fun p => "\x27" ++ p.1 ++ "\x27: \x27" ++ p.2 ++ "\x27")) ++
  "\x7d"

/-- Default model constant from scene_generation.py. -/
def DEFAULT_MODEL : String := "gemini-3-flash-preview"

/-- MAX_TOKENS from the config module (409600 in backend/config.py). -/
def MAX_TOKENS : Nat := 409600

/-- DEFAULT_TEMP from the config module (0 in backend/config.py). -/
def DEFAULT_TEMP : Rat := 0

/-- Fixed instructional text of app/claude/prompt.py `system_prompt_3d_obj`.
The function's interpolation structure (tags joined with ", " or "None" when
the list is empty, the optional theme block, and the order in which the
product fields are spliced in) follows the source exactly; the long fixed
instruction paragraphs, which no claim inspects, are abbreviated to bracketed
markers. -/
def systemPrompt3dObj (product_name product_type product_description : String)
    (product_tags : List String) (theme_style : String) : String :=
  let tags_str :=
    if product_tags.isEmpty then "None" else String.intercalate ", " product_tags
  let theme_block :=
    if theme_style = "" then "" else "\nTheme Style: " ++ theme_style
  "You are an expert 3D modeler and Three.js developer who specializes in turning 2D drawings into 3D models.\n"
    ++ "[fixed interpretation guidelines]\n"
    ++ "Product Name: " ++ product_name ++ "\n"
    ++ "Product Type: " ++ product_type ++ "\n"
    ++ "Description: " ++ product_description ++ "\n"
    ++ "Tags: " ++ tags_str ++ theme_block ++ "\n"
    ++ "[fixed technical implementation, response format and container fit text]"

/-- Modelled from the spec: `base_prompt` is imported by scene_generation.py
from app/claude/prompt.py, but the prompt module in the sources does not
define it; per spec section 4.2 step 2 it is the fixed instruction text of the
input bundle. Its content is inspected by no claim. -/
def basePrompt : String := "[fixed base instructions]"

/-- The `product_data` dict consumed by ShopifyProductTo3DTask._run_async;
an absent dict key is `none`. -/
structure ProductData where
  title : Option String := none
  description : Option String := none
  product_type : Option String := none
  tags : Option (List String) := none
  featured_image : Option String := none
  image_base64 : Option String := none
  id : Option String := none

/-- The `shop_theme` dict consumed by _build_product_prompt. A `none` passed
for the whole dict models Python's falsy `None` (the parameter's default). -/
structure ShopTheme where
  colors : Option (List (String × String)) := none
  style : Option String := none

/-- Shape of the external `generate_content` response as read by the task:
the optional text and the optional `usage_metadata` token counts
(`getattr(..., ..., 0)` turns an absent count into 0). -/
structure GenResponse where
  text : Option String := none
  prompt_token_count : Option Nat := none
  candidates_token_count : Option Nat := none
  total_token_count : Option Nat := none

/-- The types.GenerateContentConfig built by the task. -/
structure GenerateContentConfig where
  response_modalities : List String
  temperature : Rat
  max_output_tokens : Nat

/-- One element of the `contents` list sent to the model. -/
inductive Content where
  | text (str : String)
  | image

/-- Events published on the per-task Redis pub/sub channel
(redis_service.publish_start_event / publish_complete_event /
publish_error_event). -/
inductive REvent where
  | start (task_id : String)
  | complete (task_id : String) (payload : JVal)
  | error (task_id : String) (msg : String)

/-- Outcome oracle for the task's effectful collaborators: whether each call
returns normally or raises, and what the external model call returns. -/
structure TaskEnv where
  publishStart : Except PyErr Unit
  getClient : Except PyErr Unit
  decodeImage : Except PyErr Content
  generate : GenerateContentConfig → String → List Content → Except PyErr GenResponse
  publishComplete : Except PyErr Unit
  storeFinal : Except PyErr Unit
  publishError : Except PyErr Unit
  storeError : Except PyErr Unit

/-- Modelled from the spec: redis_service.store_response (app/utils/redis.py is
not among the sources) writes the payload under a key combining a fixed prefix
with the job id (spec section 4.3); the prefix "task_result:" is the one the
in-repo readers use (stream_task_result polls it, cancel_task deletes it). -/
def storeKey (task_id : String) : String := "task_result:" ++ task_id

/-- The early-return payload of _run_async when the image URL is missing. -/
def errNoImagePayload : JVal :=
  .obj [("status", .s "error"), ("error", .s "No image URL provided")]

/-- The error payload built by the except handler of _run_async. -/
def errorPayload (task_id : String) (e : PyErr) : JVal :=
  .obj [("status", .s "error"), ("error", .s e.msg),
        ("error_type", .s e.ty), ("task_id", .s task_id)]

/-- The final_response dict built by _run_async on the success path. -/
def finalResponse (task_id : String) (pd : ProductData) (r : GenResponse) : JVal :=
  .obj [("status", .s "success"),
        ("product_id", match pd.id with | some i => .s i | none => .null),
        ("product_name", .s (pd.title.getD "Unknown Product")),
        ("metadata", .s (r.text.getD "")),
        ("model", .s DEFAULT_MODEL),
        ("usage", .obj [("input_tokens", .n (r.prompt_token_count.getD 0)),
                        ("output_tokens", .n (r.candidates_token_count.getD 0)),
                        ("total_tokens", .n (r.total_token_count.getD 0))]),
        ("task_id", .s task_id)]

/-- Observable outcome of one _run_async execution: the returned value, the
events published, the store writes performed (key, payload), and how many
external generation calls were made. -/
structure BodyOut where
  result : JVal
  events : List REvent
  stores : List (String × JVal)
  externalCalls : Nat

/-- Partial trace carried to the except handler when the try body raises. -/
structure Caught where
  exc : PyErr
  events : List REvent
  stores : List (String × JVal)
  externalCalls : Nat

/-- ShopifyProductTo3DTask._build_product_prompt. The source assigns the local
`prompt` only inside the `if shop_theme:` branch; when shop_theme is falsy
(its default None) the trailing `return prompt` reads an unbound local and
Python raises UnboundLocalError. -/
def buildProductPrompt (product_name product_description product_type : String)
    (product_tags : List String) (shop_theme : Option ShopTheme) :
    Except PyErr String :=
  match shop_theme with
  | some t =>
      let colors := t.colors.getD []
      let style := t.style.getD "modern"
      let theme_style :=
        "\n\nShop Theme: " ++ style ++ " style with colors " ++ pyDictRepr colors
      .ok (systemPrompt3dObj product_name product_type product_description
            product_tags theme_style)
  | none =>
      .error { msg := "cannot access local variable \x27prompt\x27 where it is not associated with a value",
               ty := "UnboundLocalError" }

/-- The try block of ShopifyProductTo3DTask._run_async, in source order:
publish the start event, get the client, read the product fields with their
dict.get defaults, early-return the error dict when the image URL is falsy,
build the prompt, assemble contents (a decode failure is swallowed with a
warning), perform the single external call, build final_response, publish the
completion event, store the response. `.ok` is a normal return (including the
missing-image early return); `.error` carries the exception and the partial
effect trace into the except handler. The source's local variables
(product_name, contents, config, final_response) are inlined. -/
def tryBody (env : TaskEnv) (task_id : String) (pd : ProductData)
    (shop_theme : Option ShopTheme) (max_tokens : Nat) (temperature : Rat) :
    Except Caught BodyOut :=
  match env.publishStart with
  | .error e => .error ⟨e, [], [], 0⟩
  | .ok _ =>
  match env.getClient with
  | .error e => .error ⟨e, [.start task_id], [], 0⟩
  | .ok _ =>
  if pd.featured_image.getD "" = "" then
    .ok ⟨errNoImagePayload, [.start task_id], [], 0⟩
  else
    match buildProductPrompt (pd.title.getD "Unknown Product")
            (pd.description.getD "") (pd.product_type.getD "")
            (pd.tags.getD []) shop_theme with
    | .error e => .error ⟨e, [.start task_id], [], 0⟩
    | .ok prompt =>
      match env.generate
          { response_modalities := ["Text"], temperature := temperature,
            max_output_tokens := max_tokens }
          prompt
          (Content.text basePrompt ::
            (if pd.featured_image.getD "" ≠ "" ∧ pyTruthyOptStr pd.image_base64 then
              match env.decodeImage with
              | .ok img => [img]
              | .error _ => []
            else [])) with
      | .error e => .error ⟨e, [.start task_id], [], 1⟩
      | .ok response =>
        match env.publishComplete with
        | .error e => .error ⟨e, [.start task_id], [], 1⟩
        | .ok _ =>
        match env.storeFinal with
        | .error e =>
            .error ⟨e, [.start task_id,
              .complete task_id (finalResponse task_id pd response)], [], 1⟩
        | .ok _ =>
            .ok ⟨finalResponse task_id pd response,
                 [.start task_id, .complete task_id (finalResponse task_id pd response)],
                 [(storeKey task_id, finalResponse task_id pd response)], 1⟩

/-- ShopifyProductTo3DTask._run_async: the try body plus the except handler.
The handler builds the error payload and always returns it; it publishes the
error event and then stores the payload, but a failure of either is swallowed
by the inner `except Exception: pass` (a failing publish also skips the
store, since both sit in one inner try). The function is total: no exception
escapes its boundary. -/
def runAsync (env : TaskEnv) (task_id : String) (pd : ProductData)
    (shop_theme : Option ShopTheme) (max_tokens : Nat) (temperature : Rat) :
    BodyOut :=
  match tryBody env task_id pd shop_theme max_tokens temperature with
  | .ok out => out
  | .error c =>
    let er := errorPayload task_id c.exc
    match env.publishError with
    | .error _ => ⟨er, c.events, c.stores, c.externalCalls⟩
    | .ok _ =>
      match env.storeError with
      | .error _ => ⟨er, c.events ++ [.error task_id c.exc.msg], c.stores, c.externalCalls⟩
      | .ok _ =>
          ⟨er, c.events ++ [.error task_id c.exc.msg],
           c.stores ++ [(storeKey task_id, er)], c.externalCalls⟩

/-- Number of terminal (complete or error) events in a published trace;
start events are not terminal. -/
def terminalCount : List REvent → Nat
  | [] => 0
  | .start _ :: es => terminalCount es
  | .complete _ _ :: es => 1 + terminalCount es
  | .error _ _ :: es => 1 + terminalCount es

/-- The synthetic queued frame emitted by the SSE generator when the store has
no entry yet and nothing was emitted on this session. -/
def queuedEvt (task_id : String) : JVal :=
  .obj [("status", .s "queued"), ("message", .s "Task queued, processing..."),
        ("task_id", .s task_id)]

/-- The timeout frame emitted when the session exceeds its wait budget. -/
def timeoutEvt : JVal :=
  .obj [("status", .s "timeout"), ("message", .s "Task timed out")]

/-- The frame emitted when reading or parsing the stored value raises. -/
def streamErrEvt (e : PyErr) : JVal :=
  .obj [("status", .s "error"), ("message", .s e.msg)]

/-- The polling loop of stream_task_result.event_generator. `hist j` is what
the Redis read of key `task_result:{task_id}` observes on iteration `j`
(a connectivity/parse failure, no entry yet, or the parsed stored value).
`k` counts the completed 0.5 s sleeps, so the elapsed wall time on iteration
`k` is k/2 seconds and the source timeout check `elapsed > 3600` succeeds
first on iteration 7201; the loop body therefore runs on iterations
k = 0..7200, and `fuel = 7201 - k` makes the recursion structural, the
fuel-0 case being exactly the timeout branch. `prev` is previous_status
(Python None at session start). A frame is emitted only when the stored
status differs from `prev`; the loop ends after a timeout frame, a read
error frame, or a frame whose status is "completed" or "failed". -/
def streamLoop (task_id : String) (hist : Nat → Except PyErr (Option JVal)) :
    Nat → Nat → Option String → List JVal
  | 0, _, _ => [timeoutEvt]
  | fuel + 1, k, prev =>
    match hist k with
    | .error e => [streamErrEvt e]
    | .ok (some v) =>
      let cur := jgetStr v "status"
      if cur ≠ prev then
        if cur = some "completed" ∨ cur = some "failed" then [v]
        else v :: streamLoop task_id hist fuel (k + 1) cur
      else streamLoop task_id hist fuel (k + 1) prev
    | .ok none =>
      if prev = none then
        queuedEvt task_id :: streamLoop task_id hist fuel (k + 1) (some "queued")
      else streamLoop task_id hist fuel (k + 1) prev

/-- The full frame sequence of one SSE session of GET /task-stream/{task_id}:
the loop starts on iteration 0 with nothing emitted yet, and on iteration
7201 the elapsed 3600.5 s exceed the 3600 s budget. -/
def streamEvents (task_id : String) (hist : Nat → Except PyErr (Option JVal)) :
    List JVal :=
  streamLoop task_id hist 7201 0 none

/-- Result Store state as a key/value association list; `getVal` is
redis_service.get_value followed by JSON parsing. -/
def getVal (st : List (String × JVal)) (k : String) : Option JVal :=
  (st.find? (fun p => p.1 == k)).map (fun p => p.2)

/-- Modelled from the spec: redis_service.delete_value (app/utils/redis.py is
not among the sources) removes the Result Store entry under the given key. -/
def deleteValue (st : List (String × JVal)) (k : String) : List (String × JVal) :=
  st.filter (fun p => p.1 ≠ k)

/-- TaskResultResponse from app/api/models.py. -/
structure TaskResultResponse where
  task_id : String
  status : String
  result : Option JVal := none
  message : Option String := none
  error : Option String := none

/-- TaskResponse from app/api/models.py. -/
structure TaskResponse where
  task_id : String
  status : String
  message : String

/-- get_task_result(task_id) from app/api/routes.py. `conn` models the
connectivity of the single Redis read (an exception anywhere in the try block
becomes HTTP 500). NOTE, faithful to the source: the read is
`redis_service.get_value(task_id)` — the RAW task id, not the namespaced
`task_result:{task_id}` key the task's store_response writes. An absent key
yields the pending response; a present value is echoed with its status. -/
def getTaskResult (conn : Except PyErr Unit) (st : List (String × JVal))
    (task_id : String) : Except (Nat × String) TaskResultResponse :=
  match conn with
  | .error e => .error (500, "Failed to retrieve task result: " ++ e.msg)
  | .ok _ =>
    match getVal st task_id with
    | some v =>
        .ok { task_id := task_id, status := (jgetStr v "status").getD "unknown",
              result := some v }
    | none =>
        .ok { task_id := task_id, status := "pending",
              message := some "Task is still processing or not found" }

/-- Side effects of cancel_task: the Celery revoke signal (with
terminate=True) and the Redis key deletion. -/
inductive CancelAction where
  | revoke (task_id : String) (terminate : Bool)
  | deleteKey (key : String)

/-- cancel_task(task_id) from app/api/routes.py: revoke the Celery task, then
delete the Result Store entry under the namespaced key "task_result:{id}".
`revokeR`/`deleteR` model whether each call raises. Returns the HTTP outcome
(`.ok` is 204 No Content carrying the post-delete store state) together with
the actions actually performed. -/
def cancelTask (revokeR deleteR : Except PyErr Unit)
    (st : List (String × JVal)) (task_id : String) :
    Except (Nat × String) (List (String × JVal)) × List CancelAction :=
  match revokeR with
  | .error e => (.error (500, "Failed to cancel task: " ++ e.msg), [])
  | .ok _ =>
    match deleteR with
    | .error e =>
        (.error (500, "Failed to cancel task: " ++ e.msg),
         [.revoke task_id true])
    | .ok _ =>
        (.ok (deleteValue st (storeKey task_id)),
         [.revoke task_id true, .deleteKey (storeKey task_id)])

/-- ProductData from app/api/models.py (request schema: title and
featured_image are required, featured_image is declared `str`). -/
structure ProductDataReq where
  title : String
  description : Option String := none
  product_type : Option String := none
  tags : Option (List String) := none
  featured_image : String
  image_base64 : Option String := none
  id : Option String := none

/-- ShopTheme from app/api/models.py. -/
structure ShopThemeReq where
  style : Option String := some "modern"
  colors : Option (List (String × String)) := none

/-- GenerateProduct3DRequest from app/api/models.py. -/
structure GenerateProduct3DRequest where
  product_data : ProductDataReq
  shop_theme : Option ShopThemeReq := none
  max_tokens : Option Nat := some 4096
  temperature : Option Rat := some (7 / 10)

/-- Python attribute access `.url` on a value of static type `str` (models.py
declares `featured_image: str`, so the validated value is a plain string):
always raises AttributeError. -/
def strAttrUrl (_v : String) : Except PyErr String :=
  .error { msg := "\x27str\x27 object has no attribute \x27url\x27",
           ty := "AttributeError" }

/-- The argument tuple of one ShopifyProductTo3DTask.apply_async call. -/
structure ScheduledTask where
  task_id : String
  product_dict : JVal
  shop_theme : Option ShopTheme
  max_tokens : Option Nat
  temperature : Option Rat

/-- generate_product_3d from app/api/routes.py, given the freshly generated
uuid4 string. `queueR` models whether apply_async itself raises. Faithful to
the source: the product dict is built from
`request.product_data.featured_image.url` (attribute access on a plain str),
`id or task_id`, `description or ""`, `tags or []`; any exception in the try
block is returned as HTTP 500 "Failed to queue task: ...". Returns the HTTP
outcome and the list of apply_async calls made. -/
def generateProduct3d (fresh_task_id : String) (queueR : Except PyErr Unit)
    (req : GenerateProduct3DRequest) :
    Except (Nat × String) TaskResponse × List ScheduledTask :=
  match strAttrUrl req.product_data.featured_image with
  | .error e => (.error (500, "Failed to queue task: " ++ e.msg), [])
  | .ok url =>
    let product_dict : JVal := .obj
      [("id", .s (pyOrStr req.product_data.id fresh_task_id)),
       ("title", .s req.product_data.title),
       ("description", .s (pyOrStr req.product_data.description "")),
       ("product_type", .s (pyOrStr req.product_data.product_type "")),
       ("tags", .arr (((req.product_data.tags).getD []).map (fun t => .s t))),
       ("image_url", .s url)]
    let shop_theme : Option ShopTheme :=
      req.shop_theme.map (fun t => { style := t.style, colors := some (t.colors.getD []) })
    match queueR with
    | .error e => (.error (500, "Failed to queue task: " ++ e.msg), [])
    | .ok _ =>
        (.ok { task_id := fresh_task_id, status := "queued",
               message := "Task " ++ fresh_task_id ++ " queued for processing" },
         [{ task_id := fresh_task_id, product_dict := product_dict,
            shop_theme := shop_theme, max_tokens := req.max_tokens,
            temperature := req.temperature }])

/-! Concrete fixtures used by witnesses and counterexamples. -/

/-- A well-formed product dict with an image URL. -/
def pdChair : ProductData :=
  { title := some "Chair", featured_image := some "https://example.com/chair.png" }

/-- A product dict missing the featured_image key. -/
def pdNoImage : ProductData := { title := some "Chair" }

/-- A shop theme dict. -/
def themeW : ShopTheme :=
  { colors := some [("primary", "#ffffff")], style := some "modern" }

/-- The stub model response of the spec's success scenario: text "OK" and
usage counts prompt 10, candidates 5, total 15. -/
def respOK : GenResponse :=
  { text := some "OK", prompt_token_count := some 10,
    candidates_token_count := some 5, total_token_count := some 15 }

/-- An effect environment in which every collaborator call succeeds and the
model returns `respOK`. -/
def envAllOk : TaskEnv :=
  { publishStart := .ok (), getClient := .ok (), decodeImage := .ok .image,
    generate := fun _ _ _ => .ok respOK, publishComplete := .ok (),
    storeFinal := .ok (), publishError := .ok (), storeError := .ok () }

/-- The exception thrown by the external call in the failing-effects fixture. -/
def eGen : PyErr := { msg := "upstream unavailable", ty := "ServerError" }

/-- An environment in which the external call throws and reporting the
resulting error also throws (publish_error_event and store_response both
raise inside the except handler). -/
def envReportFail : TaskEnv :=
  { publishStart := .ok (), getClient := .ok (), decodeImage := .ok .image,
    generate := fun _ _ _ => .error eGen, publishComplete := .ok (),
    storeFinal := .ok (),
    publishError := .error { msg := "redis down", ty := "ConnectionError" },
    storeError := .error { msg := "redis down", ty := "ConnectionError" } }

/-- A store history in which no entry for the job ever appears. -/
def histNone : Nat → Except PyErr (Option JVal) := fun _ => .ok none

/-- A store history for a job whose Generation Task succeeds: nothing stored
when the session starts, and from the next poll on the task's stored success
payload is visible under the polled key. -/
def histAfterSuccess : Nat → Except PyErr (Option JVal) :=
  fun k => if k = 0 then .ok none else .ok (some (finalResponse "job1" pdChair respOK))

/-! Helper lemmas. -/

/-- The status field of an except-handler error payload is "error". -/
theorem jgetStr_errorPayload (task_id : String) (e : PyErr) :
    jgetStr (errorPayload task_id e) "status" = some "error" := rfl

/-- A key absent from a store is still absent after filtering. -/
theorem getVal_filter_none (st : List (String × JVal)) (p : String × JVal → Bool)
    (a : String) (h : getVal st a = none) : getVal (st.filter p) a = none := by
  simp only [getVal, Option.map_eq_none', List.find?_eq_none] at h ⊢
  intro x hx
  exact h x (List.mem_of_mem_filter hx)

/-- Deleting a key removes its entry. -/
theorem getVal_deleteValue_self (st : List (String × JVal)) (k : String) :
    getVal (deleteValue st k) k = none := by
  simp only [getVal, deleteValue, Option.map_eq_none', List.find?_eq_none]
  intro x hx
  have hpx := List.of_mem_filter hx
  simpa using hpx

/-- An iteration on which the SSE loop neither emits nor stops: the read
succeeds, and either the store is still empty while something was already
emitted, or the stored status equals the last emitted status. -/
def quietAt (hist : Nat → Except PyErr (Option JVal)) (prev : Option String)
    (j : Nat) : Prop :=
  match hist j with
  | .ok none => prev ≠ none
  | .ok (some v) => jgetStr v "status" = prev
  | .error _ => False

/-- One-step unfolding of the loop below the timeout bound. -/
theorem streamLoop_succ (task_id : String) (hist : Nat → Except PyErr (Option JVal))
    (fuel k : Nat) (prev : Option String) :
    streamLoop task_id hist (fuel + 1) k prev =
      match hist k with
      | .error e => [streamErrEvt e]
      | .ok (some v) =>
        if jgetStr v "status" ≠ prev then
          if jgetStr v "status" = some "completed" ∨ jgetStr v "status" = some "failed" then
            [v]
          else v :: streamLoop task_id hist fuel (k + 1) (jgetStr v "status")
        else streamLoop task_id hist fuel (k + 1) prev
      | .ok none =>
        if prev = none then
          queuedEvt task_id :: streamLoop task_id hist fuel (k + 1) (some "queued")
        else streamLoop task_id hist fuel (k + 1) prev := rfl

/-- When every iteration is quiet, the loop runs down the clock and emits the
single timeout frame. -/
theorem streamLoop_quiet (task_id : String)
    (hist : Nat → Except PyErr (Option JVal)) (prev : Option String)
    (hq : ∀ j, quietAt hist prev j) :
    ∀ fuel k : Nat, streamLoop task_id hist fuel k prev = [timeoutEvt] := by
  intro fuel
  induction fuel with
  | zero => intro k; rfl
  | succ n ih =>
      intro k
      have hqk := hq k
      unfold quietAt at hqk
      rw [streamLoop_succ]
      rcases hh : hist k with e | ov
      · rw [hh] at hqk; simp at hqk
      · rcases ov with _ | v
        · rw [hh] at hqk
          simp only [ne_eq] at hqk
          simp [hh, hqk, ih]
        · rw [hh] at hqk
          simp only at hqk
          simp [hh, hqk, ih]

/-- C6: a Notification Stream opened on a job id for which no Result Store
entry ever appears emits exactly one synthetic queued event, then — once the
elapsed time exceeds the 3600 s budget — exactly one timeout event, and
closes, with no other events in between or after. -/
theorem c6_ghost_job_queued_then_timeout (task_id : String) :
    streamEvents task_id histNone = [queuedEvt task_id, timeoutEvt] := by
  have hq : ∀ j, quietAt histNone (some "queued") j := by
    intro j; simp [quietAt, histNone]
  have htail := streamLoop_quiet task_id histNone (some "queued") hq 7200 1
  unfold streamEvents
  rw [show (7201 : Nat) = 7200 + 1 from rfl, streamLoop_succ]
  simp [histNone, htail]

/-- C2: for a job whose Generation Task succeeds, the stored status is
"success", which the stream close condition (status in
["completed", "failed"]) never matches; the session therefore emits the
success frame, stays open, and after the timeout budget emits a further
timeout frame — contradicting the claim (and the route docstring) that
the stream closes upon the terminal completion event with nothing after it. -/
theorem c2_stream_timeout_after_success_bug :
    streamEvents "job1" histAfterSuccess =
      [queuedEvt "job1", finalResponse "job1" pdChair respOK, timeoutEvt] := by
  have hq : ∀ j, quietAt histAfterSuccess (some "success") j := by
    intro j
    rcases j with _ | j
    · simp [quietAt, histAfterSuccess]
    · simp [quietAt, histAfterSuccess]
      rfl
  have htail := streamLoop_quiet "job1" histAfterSuccess (some "success") hq 7199 2
  have hcur : jgetStr (finalResponse "job1" pdChair respOK) "status" = some "success" := rfl
  have hne : (some "success" : Option String) ≠ some "queued" := by decide
  have hterm : ¬((some "success" : Option String) = some "completed" ∨
      (some "success" : Option String) = some "failed") := by decide
  have h1 : streamLoop "job1" histAfterSuccess (7199 + 1) 1 (some "queued") =
      [finalResponse "job1" pdChair respOK, timeoutEvt] := by
    rw [streamLoop_succ]
    simp only [histAfterSuccess, show ((1 : Nat) = 0) = False by simp]
    simp [hcur, hne, hterm, htail]
  unfold streamEvents
  rw [show (7201 : Nat) = 7200 + 1 from rfl, streamLoop_succ]
  simp [histAfterSuccess]
  exact h1

/-- When shop_theme is None, the only normal return of the try body is the
missing-image early return: every other path hits the prompt builder, whose
unbound local raises. -/
theorem tryBody_none_ok (env : TaskEnv) (task_id : String) (pd : ProductData)
    (mt : Nat) (tp : Rat) (out : BodyOut)
    (h : tryBody env task_id pd none mt tp = .ok out) :
    out.result = errNoImagePayload := by
  unfold tryBody at h
  repeat' split at h
  all_goals simp_all [buildProductPrompt]
  all_goals (by_cases himg : pd.featured_image.getD "" = "" <;> simp_all)
  all_goals (subst h; rfl)

/-- C10: with shop_theme absent (None, its default), every execution of the
Generation Task returns an error payload — either the missing-image early
return or, once the prompt builder is reached, the UnboundLocalError from its
unassigned `prompt` local converted by the except handler — so no execution
without a shop theme can produce a success result. -/
theorem c10_no_theme_never_success (env : TaskEnv) (task_id : String)
    (pd : ProductData) (mt : Nat) (tp : Rat) :
    jgetStr (runAsync env task_id pd none mt tp).result "status" = some "error" := by
  unfold runAsync
  rcases htb : tryBody env task_id pd none mt tp with c | out
  · cases env.publishError with
    | error e => exact jgetStr_errorPayload task_id c.exc
    | ok u =>
      cases env.storeError with
      | error e => exact jgetStr_errorPayload task_id c.exc
      | ok u => exact jgetStr_errorPayload task_id c.exc
  · rw [tryBody_none_ok env task_id pd mt tp out htb]
    rfl

/-- C5: whenever the try body of the Generation Task raises (any exception,
including the external call throwing), the task returns the error payload
with status/error/error_type/task_id built from that exception — regardless
of whether publishing or storing the error payload itself raises (those
reporting failures are swallowed). The embedding of _run_async is a total
function, so no exception crosses the task boundary. -/
theorem c5_exception_to_error_payload (env : TaskEnv) (task_id : String)
    (pd : ProductData) (shop_theme : Option ShopTheme) (mt : Nat) (tp : Rat)
    (c : Caught) (h : tryBody env task_id pd shop_theme mt tp = .error c) :
    (runAsync env task_id pd shop_theme mt tp).result = errorPayload task_id c.exc := by
  unfold runAsync
  rw [h]
  cases env.publishError with
  | error e => rfl
  | ok u =>
    cases env.storeError with
    | error e => rfl
    | ok u => rfl

/-- Witness for C5 at a concrete input: the external call throws `eGen` and
both error-reporting effects also throw, yet the task returns the error
payload built from `eGen`. -/
theorem c5_exception_to_error_payload_witness :
    (runAsync envReportFail "job1" pdChair (some themeW) 4096 0).result =
      errorPayload "job1" eGen :=
  c5_exception_to_error_payload envReportFail "job1" pdChair (some themeW) 4096 0
    ⟨eGen, [.start "job1"], [], 1⟩ rfl

/-- C4: when the product data lacks the image URL, the task performs no
external generation call at all and (when reaching the check, i.e. the start
publish and client acquisition do not themselves raise) returns the error
payload whose message names the missing image. -/
theorem c4_missing_image_no_external_call (env : TaskEnv) (task_id : String)
    (pd : ProductData) (shop_theme : Option ShopTheme) (mt : Nat) (tp : Rat)
    (himg : pd.featured_image.getD "" = "") :
    (runAsync env task_id pd shop_theme mt tp).externalCalls = 0 ∧
    (env.publishStart = .ok () → env.getClient = .ok () →
      (runAsync env task_id pd shop_theme mt tp).result = errNoImagePayload) := by
  unfold runAsync tryBody
  rcases hps : env.publishStart with e | u
  · refine ⟨?_, ?_⟩
    · cases env.publishError with
      | error e2 => rfl
      | ok u2 =>
        cases env.storeError with
        | error e3 => rfl
        | ok u3 => rfl
    · intro h1 h2
      exact absurd h1 (by simp)
  · rcases hgc : env.getClient with e | u2
    · refine ⟨?_, ?_⟩
      · cases env.publishError with
        | error e2 => rfl
        | ok u2 =>
          cases env.storeError with
          | error e3 => rfl
          | ok u3 => rfl
      · intro h1 h2
        exact absurd h2 (by simp)
    · constructor
      · simp [himg]
      · intro h1 h2
        simp [himg]

/-- Witness for C4 at a concrete input: the missing-image product dict with
all effects succeeding yields the "No image URL provided" error payload and
zero external calls. -/
theorem c4_missing_image_no_external_call_witness :
    (runAsync envAllOk "job2" pdNoImage none 4096 0).externalCalls = 0 ∧
    (runAsync envAllOk "job2" pdNoImage none 4096 0).result = errNoImagePayload :=
  ⟨(c4_missing_image_no_external_call envAllOk "job2" pdNoImage none 4096 0 rfl).1,
   (c4_missing_image_no_external_call envAllOk "job2" pdNoImage none 4096 0 rfl).2 rfl rfl⟩

/-- Terminal events in a concatenation add up. -/
theorem terminalCount_append (a b : List REvent) :
    terminalCount (a ++ b) = terminalCount a + terminalCount b := by
  induction a with
  | nil => simp [terminalCount]
  | cons hd tl ih => cases hd <;> simp [terminalCount, ih] <;> omega

/-- Inversion for a try body that raised: when the success-path store does
not itself fail, the partial trace carried to the except handler holds no
terminal event and no store write (the one branch that raises after a
terminal publish is store_response failing after publish_complete). -/
theorem tryBody_error_inv (env : TaskEnv) (task_id : String) (pd : ProductData)
    (shop_theme : Option ShopTheme) (mt : Nat) (tp : Rat) (c : Caught)
    (hsf : env.storeFinal = .ok ())
    (h : tryBody env task_id pd shop_theme mt tp = .error c) :
    terminalCount c.events = 0 ∧ c.stores = [] := by
  unfold tryBody at h
  repeat' split at h
  all_goals try exact Except.noConfusion h
  all_goals try (injection h with h1; subst h1; exact ⟨rfl, rfl⟩)
  all_goals simp_all

/-- Inversion for a try body that returned normally: the return is either the
missing-image early return or the success record, which carries exactly one
terminal event and exactly the store write of its own result. -/
theorem tryBody_ok_inv (env : TaskEnv) (task_id : String) (pd : ProductData)
    (shop_theme : Option ShopTheme) (mt : Nat) (tp : Rat) (out : BodyOut)
    (h : tryBody env task_id pd shop_theme mt tp = .ok out) :
    (out = ⟨errNoImagePayload, [.start task_id], [], 0⟩ ∧
      pd.featured_image.getD "" = "") ∨
    (terminalCount out.events = 1 ∧ out.stores = [(storeKey task_id, out.result)]) := by
  unfold tryBody at h
  repeat' split at h
  all_goals try exact Except.noConfusion h
  all_goals try (injection h with h1; subst h1; exact Or.inr ⟨rfl, rfl⟩)
  all_goals (by_cases himg : pd.featured_image.getD "" = "" <;> simp_all)

/-- C1 (amended): provided the reporting effects themselves succeed
(publish_complete/store on the success path, publish_error/store in the
except handler), the task publishes exactly one terminal event and performs
exactly one Result Store write — of the very payload it returns, under
task_result:{job_id} — on the success path and on every exception path; but
on the missing-image early-return path (reached whenever the start publish
and client acquisition do not raise) it publishes no terminal event and
writes nothing. -/
theorem c1_terminal_reporting_amended (env : TaskEnv) (task_id : String)
    (pd : ProductData) (shop_theme : Option ShopTheme) (mt : Nat) (tp : Rat)
    (hpe : env.publishError = .ok ()) (hse : env.storeError = .ok ())
    (hpc : env.publishComplete = .ok ()) (hsf : env.storeFinal = .ok ()) :
    (pd.featured_image.getD "" ≠ "" →
      terminalCount (runAsync env task_id pd shop_theme mt tp).events = 1 ∧
      (runAsync env task_id pd shop_theme mt tp).stores =
        [(storeKey task_id, (runAsync env task_id pd shop_theme mt tp).result)]) ∧
    (pd.featured_image.getD "" = "" →
      env.publishStart = .ok () → env.getClient = .ok () →
      terminalCount (runAsync env task_id pd shop_theme mt tp).events = 0 ∧
      (runAsync env task_id pd shop_theme mt tp).stores = []) := by
  constructor
  · intro himg
    rcases htb : tryBody env task_id pd shop_theme mt tp with c | out
    · have hinv := tryBody_error_inv env task_id pd shop_theme mt tp c hsf htb
      unfold runAsync
      rw [htb, hpe, hse]
      refine ⟨?_, ?_⟩
      · simp [terminalCount_append, hinv.1, terminalCount]
      · simp [hinv.2]
    · rcases tryBody_ok_inv env task_id pd shop_theme mt tp out htb with
        ⟨hout, himg2⟩ | ⟨h1, h2⟩
      · exact absurd himg2 himg
      · unfold runAsync
        rw [htb]
        exact ⟨h1, h2⟩
  · intro himg hps hgc
    have htb : tryBody env task_id pd shop_theme mt tp =
        .ok ⟨errNoImagePayload, [.start task_id], [], 0⟩ := by
      unfold tryBody
      rw [hps, hgc]
      simp [himg]
    unfold runAsync
    rw [htb]
    exact ⟨rfl, rfl⟩

/-- Counterexample to C1 as stated: on the missing-image completion path
(with every collaborator call succeeding), the task returns the error payload
but publishes zero terminal events and performs zero Result Store writes. -/
theorem c1_missing_image_counterexample :
    terminalCount (runAsync envAllOk "job1" pdNoImage (some themeW) 4096 0).events = 0 ∧
    (runAsync envAllOk "job1" pdNoImage (some themeW) 4096 0).stores = [] ∧
    jgetStr (runAsync envAllOk "job1" pdNoImage (some themeW) 4096 0).result "status" =
      some "error" :=
  ⟨rfl, rfl, rfl⟩

/-- Witness for the amended C1 at a concrete input: a well-formed submission
with all effects succeeding publishes exactly one terminal event and stores
exactly its returned payload under the namespaced key. -/
theorem c1_terminal_reporting_witness :
    terminalCount (runAsync envAllOk "job1" pdChair (some themeW) 4096 0).events = 1 ∧
    (runAsync envAllOk "job1" pdChair (some themeW) 4096 0).stores =
      [(storeKey "job1", (runAsync envAllOk "job1" pdChair (some themeW) 4096 0).result)] :=
  (c1_terminal_reporting_amended envAllOk "job1" pdChair (some themeW) 4096 0
    rfl rfl rfl rfl).1 (by decide)

/-- C7: when the Generation Task reaches the external call (image present,
theme supplied, start publish and client acquisition succeed) and the call
returns `resp`, and the completion publish and store succeed, then the one
stored payload is the success response whose usage fields are exactly the
upstream prompt/candidates/total token counts with 0 substituted for an
absent count — in particular `resp` may lack all usage metadata and the job
still succeeds. -/
theorem c7_success_stores_usage (env : TaskEnv) (task_id : String)
    (pd : ProductData) (sth : ShopTheme) (mt : Nat) (tp : Rat) (resp : GenResponse)
    (hps : env.publishStart = .ok ()) (hgc : env.getClient = .ok ())
    (himg : pd.featured_image.getD "" ≠ "")
    (hg : ∀ cfg p c, env.generate cfg p c = .ok resp)
    (hpc : env.publishComplete = .ok ()) (hsf : env.storeFinal = .ok ()) :
    (runAsync env task_id pd (some sth) mt tp).stores =
      [(storeKey task_id, finalResponse task_id pd resp)] ∧
    jgetStr (finalResponse task_id pd resp) "status" = some "success" ∧
    jget (finalResponse task_id pd resp) "usage" =
      some (.obj [("input_tokens", .n (resp.prompt_token_count.getD 0)),
            ("output_tokens", .n (resp.candidates_token_count.getD 0)),
            ("total_tokens", .n (resp.total_token_count.getD 0))]) := by
  refine ⟨?_, rfl, rfl⟩
  unfold runAsync tryBody
  rw [hps, hgc]
  simp only [himg, buildProductPrompt, hg, hpc, hsf, if_neg]
  simp [himg]

/-- Witness for C7 at the spec scenario: stub response with text "OK" and
usage counts 10/5/15 is stored with usage 10/5/15. -/
theorem c7_success_stores_usage_witness :
    (runAsync envAllOk "job1" pdChair (some themeW) 4096 0).stores =
      [(storeKey "job1", finalResponse "job1" pdChair respOK)] ∧
    jgetStr (finalResponse "job1" pdChair respOK) "status" = some "success" ∧
    jget (finalResponse "job1" pdChair respOK) "usage" =
      some (.obj [("input_tokens", .n (respOK.prompt_token_count.getD 0)),
            ("output_tokens", .n (respOK.candidates_token_count.getD 0)),
            ("total_tokens", .n (respOK.total_token_count.getD 0))]) :=
  c7_success_stores_usage envAllOk "job1" pdChair themeW 4096 0 respOK
    rfl rfl (by decide) (fun _ _ _ => rfl) rfl rfl

/-- C3: every submission fails with HTTP 500 and schedules nothing. The
handler builds the product dict from request.product_data.featured_image.url,
but models.py declares featured_image as a plain str, so the attribute access
raises AttributeError, caught and re-raised as HTTP 500 "Failed to queue
task: ..." before apply_async is ever reached — the claimed 202/queued
response never occurs. -/
theorem c3_submit_always_500_bug (fresh_task_id : String)
    (queueR : Except PyErr Unit) (req : GenerateProduct3DRequest) :
    generateProduct3d fresh_task_id queueR req =
      (.error (500, "Failed to queue task: \x27str\x27 object has no attribute \x27url\x27"),
       []) := rfl

/-- C8: the result reader misses the key the task writes. With the task's
success payload stored under the namespaced key task_result:job1 (the key
store_response writes and the stream polls), GET /task-result/job1 reads the
raw key "job1", finds nothing, and answers "pending" instead of echoing the
stored payload. -/
theorem c8_result_reader_wrong_key_bug :
    getTaskResult (.ok ()) [(storeKey "job1", finalResponse "job1" pdChair respOK)] "job1" =
      .ok { task_id := "job1", status := "pending", result := none,
            message := some "Task is still processing or not found", error := none } := rfl

/-- C9: cancelling a job revokes the Celery task (terminate=True), deletes
the Result Store entry under the namespaced key task_result:{id}, and returns
204 No Content (the `.ok` outcome); and for a job that is still
queued/started (no entry under its raw id — the task writes only under the
namespaced key, and only at a terminal state), a subsequent
GET /task-result/{id} on the post-delete store returns status "pending". -/
theorem c9_cancel_deletes_and_pending (task_id : String)
    (st : List (String × JVal)) (hraw : getVal st task_id = none) :
    cancelTask (.ok ()) (.ok ()) st task_id =
      (.ok (deleteValue st (storeKey task_id)),
       [.revoke task_id true, .deleteKey (storeKey task_id)]) ∧
    getVal (deleteValue st (storeKey task_id)) (storeKey task_id) = none ∧
    getTaskResult (.ok ()) (deleteValue st (storeKey task_id)) task_id =
      .ok { task_id := task_id, status := "pending", result := none,
            message := some "Task is still processing or not found", error := none } := by
  refine ⟨rfl, getVal_deleteValue_self st (storeKey task_id), ?_⟩
  have habs : getVal (deleteValue st (storeKey task_id)) task_id = none := by
    unfold deleteValue
    exact getVal_filter_none st _ task_id hraw
  unfold getTaskResult
  rw [habs]

/-- Witness for C9 at a concrete input: a store holding only the namespaced
entry for job1, whose raw key is absent. -/
theorem c9_cancel_deletes_and_pending_witness :
    cancelTask (.ok ()) (.ok ())
        [(storeKey "job1", finalResponse "job1" pdChair respOK)] "job1" =
      (.ok (deleteValue [(storeKey "job1", finalResponse "job1" pdChair respOK)]
              (storeKey "job1")),
       [.revoke "job1" true, .deleteKey (storeKey "job1")]) ∧
    getVal (deleteValue [(storeKey "job1", finalResponse "job1" pdChair respOK)]
        (storeKey "job1")) (storeKey "job1") = none ∧
    getTaskResult (.ok ())
        (deleteValue [(storeKey "job1", finalResponse "job1" pdChair respOK)]
          (storeKey "job1")) "job1" =
      .ok { task_id := "job1", status := "pending", result := none,
            message := some "Task is still processing or not found", error := none } :=
  c9_cancel_deletes_and_pending "job1"
    [(storeKey "job1", finalResponse "job1" pdChair respOK)] rfl

end Shoptimizer
